import Mathlib

/-!
Verification development for the catalyst-backend-hf repository.

The repository is a small Express server whose only locally computed logic is
the heuristic prompt scorer `evaluatePrompt` (two behavioural variants across
the repo's near-duplicate copies of `server.js`) and the score derivation from
a CLIP classification result in `evaluateWithCLIP`.  This file embeds those
functions and the request-handler validation gate, and proves the frozen
claims about them.

Modelling conventions:
* JS strings are Lean `String` (in this toolchain a wrapper around
  `List Char`); `String.prototype.toLowerCase` is `Char.toLower` mapped over
  the characters (faithful for the ASCII data the scorer manipulates), and
  `String.prototype.includes` is substring containment, defined below.
* `Math.floor(Math.random() * 10)` is an arbitrary `rand : Fin 10`; the
  jitter added to the score is `rand - 5`, exactly the code's
  `Math.floor(Math.random() * 10) - 5`.
* JS numbers in the scorer are integers throughout, so scores are `Int`.
  The CLIP confidences are embedded as `ℚ`, with `Math.round x` as
  `⌊x + 1/2⌋` (JS rounds half toward positive infinity).
-/

namespace Catalyst

/-- Substring scan: does `sub` occur starting at some position of `s`?
`hasSubstr sub s` walks the suffixes of `s` checking `sub.isPrefixOf`. -/
def hasSubstr (sub : List Char) : List Char → Bool
  | [] => sub.isEmpty
  | c :: rest => sub.isPrefixOf (c :: rest) || hasSubstr sub rest

/-- JS `s.includes(sub)`: `sub` occurs as a contiguous substring of `s`
(the empty string is contained in every string, as in JS). -/
def jsIncludes (s sub : String) : Bool :=
  hasSubstr sub.data s.data

/-- JS `s.toLowerCase()`, restricted to its ASCII behaviour. -/
def jsToLower (s : String) : String :=
  ⟨s.data.map Char.toLower⟩

/-- The result record `{ score, explanation }` produced by the scorers. -/
structure ScoreResult where
  score : Int
  explanation : String
deriving DecidableEq

/-- Variant A keyword list (server.js line 654): the 11 science keywords. -/
def scienceKeywordsA : List String :=
  ["laboratory", "lab", "science", "scientific", "experiment",
   "research", "chemistry", "beaker", "flask", "test", "equipment"]

/-- Variant B keyword list (server.js line 278): the 15 science keywords. -/
def scienceKeywordsB : List String :=
  ["laboratory", "lab", "science", "scientific", "experiment",
   "research", "chemistry", "beaker", "flask", "test", "equipment",
   "glass", "liquid", "container", "vessel"]

/-- `scienceKeywords.filter(word => promptLower.includes(word)).length`
for the Variant A list. -/
def scienceCountA (promptLower : String) : Nat :=
  (scienceKeywordsA.filter (fun word => jsIncludes promptLower word)).length

/-- `scienceKeywords.filter(word => promptLower.includes(word)).length`
for the Variant B list. -/
def scienceCountB (promptLower : String) : Nat :=
  (scienceKeywordsB.filter (fun word => jsIncludes promptLower word)).length

/-- Variant A science-keyword bonus `Math.min(20, scienceCount * 5)`. -/
def kwBonusA (count : Nat) : Int :=
  min 20 ((count : Int) * 5)

/-- Variant B science-keyword bonus `Math.min(20, scienceCount * 4)`. -/
def kwBonusB (count : Nat) : Int :=
  min 20 ((count : Int) * 4)

/-- Variant A wording for `score >= 70` (server.js line 675). -/
def strongWordingA (labItem : String) : String :=
  "Excellent prompt! The " ++ labItem ++ " is clearly featured with strong laboratory context. The AI successfully created a scientifically relevant image."

/-- Variant A wording for `score >= 50` (server.js line 677). -/
def moderateWordingA (labItem : String) : String :=
  "Good prompt! The " ++ labItem ++ " is present in the image. Adding more laboratory context could improve accuracy."

/-- Variant A wording for lower scores (server.js line 679). -/
def weakWordingA (labItem : String) : String :=
  "The prompt is creative but may have resulted in a more artistic interpretation. The " ++ labItem ++ " may not be prominently featured."

/-- Variant B forbidden-word wording (server.js line 270). -/
def forbiddenWording (labItem : String) : String :=
  "❌ ZERO SCORE: The prompt contains the forbidden word \"" ++ labItem ++ "\". According to game rules, you cannot use the lab item word in your prompt!"

/-- Variant B wording for `score >= 80` (server.js line 300). -/
def strongWordingB : String :=
  "Excellent prompt! Strong laboratory context and creative description. The AI successfully created a scientifically relevant image without using the forbidden word."

/-- Variant B wording for `score >= 60` (server.js line 302). -/
def moderateWordingB : String :=
  "Good prompt! The image has some laboratory context. Adding more scientific keywords could improve the score."

/-- Variant B wording for lower scores (server.js line 304). -/
def weakWordingB : String :=
  "Creative prompt! The image may be more artistic. Try adding more laboratory-related context for a higher score."

/-- Variant A `evaluatePrompt` (server.js lines 644-684, the BULLETPROOF
copy): base 50, +30 when the lower-cased prompt contains the lower-cased
lab item, keyword bonus `min(20, count*5)`, jitter `rand - 5`, clamped with
`Math.max(0, Math.min(100, score))`, explanation bands at 70 and 50. -/
def evaluatePromptA (prompt labItem : String) (rand : Fin 10) : ScoreResult :=
  let promptLower := jsToLower prompt
  let labItemLower := jsToLower labItem
  let mentionsLabItem := jsIncludes promptLower labItemLower
  let scienceCount := scienceCountA promptLower
  let score : Int := 50
  let score := if mentionsLabItem then score + 30 else score
  let score := score + kwBonusA scienceCount
  let score := score + ((rand : Nat) : Int) - 5
  let score := max 0 (min 100 score)
  let explanation :=
    if score ≥ 70 then strongWordingA labItem
    else if score ≥ 50 then moderateWordingA labItem
    else weakWordingA labItem
  ⟨score, explanation⟩

/-- Variant B `evaluatePrompt` (server.js lines 257-309, the copy with the
penalty): an immediate `{ score: 0 }` return when the lower-cased prompt
contains the lower-cased lab item; otherwise base 50, keyword bonus
`min(20, count*4)`, +10 when `prompt.length > 50` and +10 more when
`prompt.length > 100`, jitter `rand - 5`, clamped with
`Math.max(30, Math.min(100, score))`, explanation bands at 80 and 60. -/
def evaluatePromptB (prompt labItem : String) (rand : Fin 10) : ScoreResult :=
  let promptLower := jsToLower prompt
  let labItemLower := jsToLower labItem
  let usedLabItemWord := jsIncludes promptLower labItemLower
  if usedLabItemWord then
    ⟨0, forbiddenWording labItem⟩
  else
    let scienceCount := scienceCountB promptLower
    let score : Int := 50
    let score := score + kwBonusB scienceCount
    let score := if prompt.length > 50 then score + 10 else score
    let score := if prompt.length > 100 then score + 10 else score
    let score := score + ((rand : Nat) : Int) - 5
    let score := max 30 (min 100 score)
    let explanation :=
      if score ≥ 80 then strongWordingB
      else if score ≥ 60 then moderateWordingB
      else weakWordingB
    ⟨score, explanation⟩

/-- The deterministic part of the Variant A score before jitter and clamp:
base 50, mention bonus, keyword bonus. -/
def detSubtotalA (prompt labItem : String) : Int :=
  let promptLower := jsToLower prompt
  let mentionsLabItem := jsIncludes promptLower (jsToLower labItem)
  (if mentionsLabItem then (50 : Int) + 30 else 50) + kwBonusA (scienceCountA promptLower)

/-- JS `Math.round` on a rational: rounding half toward positive infinity. -/
def jsRound (q : ℚ) : Int :=
  ⌊q + 1 / 2⌋

/-- `result[i]?.score || 0`: the i-th confidence, defaulting to 0 when the
entry is missing (and `|| 0` maps a present 0 to 0, so `getD` is exact). -/
def clipGet (result : List ℚ) (i : Nat) : ℚ :=
  result.getD i 0

/-- Score derivation of `evaluateWithCLIP` in server.js lines 96-102 (and the
identical copy at lines 486-492): single top confidence against the
"unrelated" confidence at index 3,
`Math.max(0, Math.min(100, Math.round((labItemScore - unrelatedScore * 0.3) * 100)))`. -/
def clipScoreTop (result : List ℚ) : Int :=
  let labItemScore := clipGet result 0
  let unrelatedScore := clipGet result 3
  max 0 (min 100 (jsRound ((labItemScore - unrelatedScore * (0.3 : ℚ)) * 100)))

/-- Score derivation of `evaluateWithCLIP` in src/unnamed/part_000 lines
111-118: average of the three lab-item confidences against the "unrelated"
confidence at index 4, weighted 0.5. -/
def clipScoreAvg (result : List ℚ) : Int :=
  let labItemScore1 := clipGet result 0
  let labItemScore2 := clipGet result 1
  let labItemScore3 := clipGet result 2
  let unrelatedScore := clipGet result 4
  let avgLabScore := (labItemScore1 + labItemScore2 + labItemScore3) / 3
  max 0 (min 100 (jsRound ((avgLabScore - unrelatedScore * (0.5 : ℚ)) * 100)))

/-- Following the spec's words for the single-top variant: "top score −
0.3×unrelated", times 100, rounded, clamped to [0,100], missing entries
defaulting to 0. -/
def specClipTop (confidences : List ℚ) : Int :=
  min 100 (max 0 (jsRound ((confidences.getD 0 0 - (0.3 : ℚ) * confidences.getD 3 0) * 100)))

/-- Following the spec's words for the averaged variant: "avg(top signal
scores) − 0.5×unrelated", times 100, rounded, clamped to [0,100], missing
entries defaulting to 0. -/
def specClipAvg (confidences : List ℚ) : Int :=
  min 100 (max 0 (jsRound
    (((confidences.getD 0 0 + confidences.getD 1 0 + confidences.getD 2 0) / 3
      - (0.5 : ℚ) * confidences.getD 4 0) * 100)))

/-- The `req.body` fields the handler destructures; a missing field is
`none`. -/
structure ReqBody where
  prompt : Option String
  labItem : Option String
  teamName : Option String

/-- JS falsiness of an optional string field: absent (`undefined`) or the
empty string. -/
def jsFalsy : Option String → Bool
  | none => true
  | some s => s == ""

/-- The external calls the handler can make, in order of occurrence. -/
inductive ExtCall where
  | generateImage (prompt : String)
  | evaluateWithCLIP (imageBase64 labItem : String)
deriving DecidableEq

/-- The observable part of the handler's HTTP response: status code and the
`success` flag of the JSON body. -/
structure HttpResponse where
  status : Nat
  success : Bool
deriving DecidableEq

/-- Handler for POST /api/generate-and-evaluate (server.js lines 122-169):
reject on any falsy field with 400, otherwise generate the image and evaluate
with CLIP; a thrown upstream error is caught and reported as 500.  The two
external services are oracles `gen` and `clip`; the second component records
the external calls made. -/
def generateAndEvaluateCLIP (body : ReqBody)
    (gen : String → Except String String)
    (clip : String → String → Except String ScoreResult) :
    HttpResponse × List ExtCall :=
  if jsFalsy body.prompt || jsFalsy body.labItem || jsFalsy body.teamName then
    (⟨400, false⟩, [])
  else
    let prompt := body.prompt.getD ""
    let labItem := body.labItem.getD ""
    match gen prompt with
    | .error _ => (⟨500, false⟩, [ExtCall.generateImage prompt])
    | .ok imageBase64 =>
      match clip imageBase64 labItem with
      | .error _ =>
          (⟨500, false⟩,
            [ExtCall.generateImage prompt, ExtCall.evaluateWithCLIP imageBase64 labItem])
      | .ok _ =>
          (⟨200, true⟩,
            [ExtCall.generateImage prompt, ExtCall.evaluateWithCLIP imageBase64 labItem])

/-- Handler for POST /api/generate-and-evaluate in the penalty copy
(server.js lines 311-377): reject on any falsy field with 400, otherwise
generate the image (503 when the failure message contains "loading", 500
otherwise) and score the prompt locally with `evaluatePromptB`. -/
def generateAndEvaluateLocal (body : ReqBody) (rand : Fin 10)
    (gen : String → Except String String) : HttpResponse × List ExtCall :=
  if jsFalsy body.prompt || jsFalsy body.labItem || jsFalsy body.teamName then
    (⟨400, false⟩, [])
  else
    let prompt := body.prompt.getD ""
    let labItem := body.labItem.getD ""
    match gen prompt with
    | .error msg =>
      if jsIncludes msg "loading" then (⟨503, false⟩, [ExtCall.generateImage prompt])
      else (⟨500, false⟩, [ExtCall.generateImage prompt])
    | .ok _imageBase64 =>
      let _evaluation := evaluatePromptB prompt labItem rand
      (⟨200, true⟩, [ExtCall.generateImage prompt])

/-! Helper lemmas about the substring scan. -/

/-- The empty string occurs in every string. -/
lemma hasSubstr_nil_left (s : List Char) : hasSubstr [] s = true := by
  cases s <;> simp [hasSubstr, List.isPrefixOf]

/-- A nonempty string does not occur in the empty string. -/
lemma hasSubstr_ne_nil_nil (w : List Char) (h : w ≠ []) : hasSubstr w [] = false := by
  cases w with
  | nil => exact absurd rfl h
  | cons a as => rfl

/-- Being a prefix is preserved by appending on the right. -/
lemma isPrefixOf_append_right (w t u : List Char) (h : w.isPrefixOf t = true) :
    w.isPrefixOf (t ++ u) = true := by
  induction w generalizing t with
  | nil => simp
  | cons a as ih =>
    cases t with
    | nil => simp at h
    | cons b bs =>
      rw [List.isPrefixOf_cons₂, Bool.and_eq_true] at h
      rw [List.cons_append, List.isPrefixOf_cons₂, Bool.and_eq_true]
      exact ⟨h.1, ih bs h.2⟩

/-- Occurring as a substring is preserved by appending on the right. -/
lemma hasSubstr_append_right (w t u : List Char) (h : hasSubstr w t = true) :
    hasSubstr w (t ++ u) = true := by
  induction t with
  | nil =>
    have hw : w = [] := by
      cases w with
      | nil => rfl
      | cons a as => simp [hasSubstr] at h
    subst hw
    exact hasSubstr_nil_left u
  | cons c rest ih =>
    rw [List.cons_append]
    simp only [hasSubstr, Bool.or_eq_true] at h ⊢
    cases h with
    | inl hp =>
      exact Or.inl (by rw [← List.cons_append]; exact isPrefixOf_append_right w (c :: rest) u hp)
    | inr hr => exact Or.inr (ih hr)

/-- JS containment is preserved by appending text to the haystack. -/
lemma jsIncludes_append_right (p s w : String) (h : jsIncludes p w = true) :
    jsIncludes (p ++ s) w = true := by
  simp only [jsIncludes, String.data_append]
  exact hasSubstr_append_right w.data p.data s.data h

/-- Lower-casing distributes over string append. -/
lemma jsToLower_append (p s : String) : jsToLower (p ++ s) = jsToLower p ++ jsToLower s := by
  simp only [jsToLower, String.data_append, List.map_append]
  rfl

/-- A keyword matched in a prompt stays matched after appending to the
prompt, so the matched-keyword count never decreases. -/
lemma keywordCount_le_append (keywords : List String) (p s : String) :
    (keywords.filter (fun w => jsIncludes (jsToLower p) w)).length ≤
      (keywords.filter (fun w => jsIncludes (jsToLower (p ++ s)) w)).length := by
  rw [← List.countP_eq_length_filter, ← List.countP_eq_length_filter]
  refine List.countP_mono_left ?_
  intro w _ hw
  rw [jsToLower_append]
  exact jsIncludes_append_right _ _ _ hw

/-- A string different from `""` has a nonempty character list. -/
lemma data_ne_nil (s : String) (h : s ≠ "") : s.data ≠ [] := by
  intro hnil
  apply h
  cases s with
  | mk d =>
    have hd : d = [] := hnil
    subst hd
    rfl

/-- An empty prompt with a nonempty lab item: the containment check fails. -/
lemma jsIncludes_empty_of_ne (labItem : String) (h : labItem ≠ "") :
    jsIncludes (jsToLower "") (jsToLower labItem) = false := by
  show hasSubstr (jsToLower labItem).data (jsToLower "").data = false
  have h0 : (jsToLower "").data = [] := rfl
  rw [h0]
  apply hasSubstr_ne_nil_nil
  simp only [jsToLower]
  simpa using data_ne_nil labItem h

/-- Variant A's clamp keeps the score in [0, 100], whatever the prompt. -/
lemma variantA_bounds_aux (prompt labItem : String) (rand : Fin 10) :
    0 ≤ (evaluatePromptA prompt labItem rand).score ∧
      (evaluatePromptA prompt labItem rand).score ≤ 100 := by
  simp only [evaluatePromptA]
  omega

/-- Variant B's score is the penalty 0 or the clamped value in [30, 100]. -/
lemma variantB_bounds_aux (prompt labItem : String) (rand : Fin 10) :
    (evaluatePromptB prompt labItem rand).score = 0 ∨
    (30 ≤ (evaluatePromptB prompt labItem rand).score ∧
      (evaluatePromptB prompt labItem rand).score ≤ 100) := by
  by_cases h : jsIncludes (jsToLower prompt) (jsToLower labItem) = true
  · left
    simp [evaluatePromptB, h]
  · right
    have h' : jsIncludes (jsToLower prompt) (jsToLower labItem) = false :=
      Bool.eq_false_iff.mpr h
    simp only [evaluatePromptB, h', Bool.false_eq_true, if_false]
    omega

/-! The claims. -/

/-- C1: Variant B of `evaluatePrompt` (the penalty scorer): whenever the
lower-cased prompt contains the lower-cased lab item as a substring, the
function returns score 0 together with the fixed forbidden-word explanation,
regardless of keywords, prompt length, or jitter. -/
theorem variantB_forbidden_word_zero (prompt labItem : String) (rand : Fin 10)
    (h : jsIncludes (jsToLower prompt) (jsToLower labItem) = true) :
    evaluatePromptB prompt labItem rand = ⟨0, forbiddenWording labItem⟩ := by
  simp [evaluatePromptB, h]

/-- Witness for C1 at a concrete input with mixed case. -/
theorem variantB_forbidden_word_zero_witness :
    jsIncludes (jsToLower "A shiny Beaker on a desk") (jsToLower "beaker") = true ∧
    evaluatePromptB "A shiny Beaker on a desk" "beaker" 0 = ⟨0, forbiddenWording "beaker"⟩ :=
  ⟨by decide, variantB_forbidden_word_zero "A shiny Beaker on a desk" "beaker" 0 (by decide)⟩

/-- C2 counterexample: on the forbidden-word path Variant B returns score 0,
which lies outside the documented Variant B clamp bounds [30, 100]. -/
theorem variantB_penalty_breaks_clamp_bounds :
    (evaluatePromptB "a" "a" 0).score = 0 ∧ ¬ 30 ≤ (evaluatePromptB "a" "a" 0).score := by
  decide

/-- C2 (amended): Variant A's score always lies in [0, 100]; Variant B's
score is always an integer in [0, 100], and is either exactly 0 (the
forbidden-word path, which bypasses the clamp) or within the clamp bounds
[30, 100]. -/
theorem score_bounds (prompt labItem : String) (rand : Fin 10) :
    (0 ≤ (evaluatePromptA prompt labItem rand).score ∧
      (evaluatePromptA prompt labItem rand).score ≤ 100) ∧
    (0 ≤ (evaluatePromptB prompt labItem rand).score ∧
      (evaluatePromptB prompt labItem rand).score ≤ 100) ∧
    ((evaluatePromptB prompt labItem rand).score = 0 ∨
      30 ≤ (evaluatePromptB prompt labItem rand).score) := by
  have hA : 0 ≤ (evaluatePromptA prompt labItem rand).score ∧
      (evaluatePromptA prompt labItem rand).score ≤ 100 := by
    simp only [evaluatePromptA]
    omega
  by_cases h : jsIncludes (jsToLower prompt) (jsToLower labItem) = true
  · refine ⟨hA, ?_, ?_⟩ <;> simp [evaluatePromptB, h]
  · have h' : jsIncludes (jsToLower prompt) (jsToLower labItem) = false :=
      Bool.eq_false_iff.mpr h
    refine ⟨hA, ?_, ?_⟩ <;>
      · simp only [evaluatePromptB, h', Bool.false_eq_true, if_false]
        omega

/-- C10: implicit invariant of Variant B: every returned score is either
exactly 0 (the forbidden-word penalty path) or lies in [30, 100] (the
clamped scoring path); no score strictly between 1 and 29 is possible. -/
theorem variantB_zero_or_clamped (prompt labItem : String) (rand : Fin 10) :
    (evaluatePromptB prompt labItem rand).score = 0 ∨
    (30 ≤ (evaluatePromptB prompt labItem rand).score ∧
      (evaluatePromptB prompt labItem rand).score ≤ 100) := by
  by_cases h : jsIncludes (jsToLower prompt) (jsToLower labItem) = true
  · left
    simp [evaluatePromptB, h]
  · right
    have h' : jsIncludes (jsToLower prompt) (jsToLower labItem) = false :=
      Bool.eq_false_iff.mpr h
    simp only [evaluatePromptB, h', Bool.false_eq_true, if_false]
    omega

/-- C3: Variant A: for the same lab item and the same jitter draw, a prompt
that contains the lab item (case-insensitively) gets a strictly greater
deterministic subtotal, and a strictly greater final score, than any prompt
that does not contain it (the +30 mention bonus dominates the ≤20 keyword
bonus). -/
theorem variantA_mention_strict_increase (p₁ p₂ labItem : String) (rand : Fin 10)
    (h₁ : jsIncludes (jsToLower p₁) (jsToLower labItem) = true)
    (h₂ : jsIncludes (jsToLower p₂) (jsToLower labItem) = false) :
    detSubtotalA p₂ labItem < detSubtotalA p₁ labItem ∧
    (evaluatePromptA p₂ labItem rand).score < (evaluatePromptA p₁ labItem rand).score := by
  have hr : ((rand : Nat) : Int) < 10 := by exact_mod_cast rand.isLt
  have hr0 : (0 : Int) ≤ ((rand : Nat) : Int) := Int.ofNat_nonneg _
  simp only [detSubtotalA, evaluatePromptA, kwBonusA, h₁, h₂, Bool.false_eq_true,
    if_false, if_true]
  constructor <;> omega

/-- Witness for C3: "beaker" contains the lab item, "x" does not. -/
theorem variantA_mention_strict_increase_witness :
    jsIncludes (jsToLower "beaker") (jsToLower "beaker") = true ∧
    jsIncludes (jsToLower "x") (jsToLower "beaker") = false ∧
    (detSubtotalA "x" "beaker" < detSubtotalA "beaker" "beaker" ∧
      (evaluatePromptA "x" "beaker" 0).score < (evaluatePromptA "beaker" "beaker" 0).score) :=
  ⟨by decide, by decide,
    variantA_mention_strict_increase "beaker" "x" "beaker" 0 (by decide) (by decide)⟩

/-- C4: in both variants the science-keyword bonus is monotone non-decreasing
in the matched-keyword count and saturates at 20 (`min(20, count*5)` in
Variant A, `min(20, count*4)` in Variant B); appending text to a prompt never
decreases the matched count, hence never decreases the bonus, and the bonus
never exceeds 20. -/
theorem keyword_bonus_monotone_capped (c₁ c₂ : Nat) (p s : String) (h : c₁ ≤ c₂) :
    kwBonusA c₁ ≤ kwBonusA c₂ ∧ kwBonusB c₁ ≤ kwBonusB c₂ ∧
    kwBonusA c₂ ≤ 20 ∧ kwBonusB c₂ ≤ 20 ∧
    scienceCountA (jsToLower p) ≤ scienceCountA (jsToLower (p ++ s)) ∧
    scienceCountB (jsToLower p) ≤ scienceCountB (jsToLower (p ++ s)) ∧
    kwBonusA (scienceCountA (jsToLower p)) ≤ kwBonusA (scienceCountA (jsToLower (p ++ s))) ∧
    kwBonusB (scienceCountB (jsToLower p)) ≤ kwBonusB (scienceCountB (jsToLower (p ++ s))) := by
  have hcA : scienceCountA (jsToLower p) ≤ scienceCountA (jsToLower (p ++ s)) :=
    keywordCount_le_append scienceKeywordsA p s
  have hcB : scienceCountB (jsToLower p) ≤ scienceCountB (jsToLower (p ++ s)) :=
    keywordCount_le_append scienceKeywordsB p s
  refine ⟨?_, ?_, ?_, ?_, hcA, hcB, ?_, ?_⟩ <;> simp only [kwBonusA, kwBonusB] <;> omega

/-- Witness for C4 at count 1 ≤ 2 and the prompt "lab" extended by " vessel". -/
theorem keyword_bonus_monotone_capped_witness :
    1 ≤ 2 ∧
    kwBonusA 1 ≤ kwBonusA 2 ∧
    scienceCountB (jsToLower "lab") ≤ scienceCountB (jsToLower ("lab" ++ " vessel")) :=
  ⟨by decide, (keyword_bonus_monotone_capped 1 2 "lab" " vessel" (by decide)).1,
    (keyword_bonus_monotone_capped 1 2 "lab" " vessel" (by decide)).2.2.2.2.2.1⟩

/-- C5 counterexample: in Variant B a final score of exactly 70 selects the
moderate wording ("Good prompt! ..."), not the high-confidence wording: the
strong band of Variant B starts at 80, not 70. -/
theorem variantB_score70_moderate_band :
    (evaluatePromptB "lab science test glass vessel" "beaker" 5).score = 70 ∧
    (evaluatePromptB "lab science test glass vessel" "beaker" 5).explanation =
      moderateWordingB ∧
    (evaluatePromptB "lab science test glass vessel" "beaker" 5).explanation ≠
      strongWordingB := by
  decide

/-- C5 (amended): explanations are selected from the final score by
≥-threshold comparisons, but the band thresholds differ per variant: Variant
A uses ≥70 (strong) and ≥50 (moderate), so a Variant A score of exactly 70
selects the strong wording; Variant B, after the forbidden-word check, uses
≥80 (strong) and ≥60 (moderate), so a Variant B score of exactly 70 selects
the moderate wording. -/
theorem explanation_bands (prompt labItem : String) (rand : Fin 10) :
    ((evaluatePromptA prompt labItem rand).explanation =
      if (evaluatePromptA prompt labItem rand).score ≥ 70 then strongWordingA labItem
      else if (evaluatePromptA prompt labItem rand).score ≥ 50 then moderateWordingA labItem
      else weakWordingA labItem) ∧
    ((evaluatePromptB prompt labItem rand).explanation =
      if jsIncludes (jsToLower prompt) (jsToLower labItem) then forbiddenWording labItem
      else if (evaluatePromptB prompt labItem rand).score ≥ 80 then strongWordingB
      else if (evaluatePromptB prompt labItem rand).score ≥ 60 then moderateWordingB
      else weakWordingB) := by
  constructor
  · simp only [evaluatePromptA]
  · by_cases h : jsIncludes (jsToLower prompt) (jsToLower labItem) = true
    · simp [evaluatePromptB, h]
    · have h' : jsIncludes (jsToLower prompt) (jsToLower labItem) = false :=
        Bool.eq_false_iff.mpr h
      simp only [evaluatePromptB, h', Bool.false_eq_true, if_false]

/-- C6: Variant A on prompt "a laboratory beaker with blue liquid" and lab
item "beaker": the lab item is mentioned (+30), exactly three keywords match
("laboratory", "lab", "beaker"; +15 under the min(20,·) cap), the
deterministic subtotal is exactly 95, and for every jitter draw the final
score is clamped to at most 100, stays ≥ 70, and selects the
high-confidence wording. -/
theorem variantA_beaker_example :
    ∀ rand : Fin 10,
      jsIncludes (jsToLower "a laboratory beaker with blue liquid") (jsToLower "beaker")
        = true ∧
      scienceCountA (jsToLower "a laboratory beaker with blue liquid") = 3 ∧
      kwBonusA 3 = 15 ∧
      detSubtotalA "a laboratory beaker with blue liquid" "beaker" = 95 ∧
      (evaluatePromptA "a laboratory beaker with blue liquid" "beaker" rand).score ≤ 100 ∧
      70 ≤ (evaluatePromptA "a laboratory beaker with blue liquid" "beaker" rand).score ∧
      (evaluatePromptA "a laboratory beaker with blue liquid" "beaker" rand).explanation =
        strongWordingA "beaker" := by
  decide

/-- C7: the CLIP-result score derivation is exactly the spec's fixed linear
weighting clamped to [0,100]: the single-top variant is
`round((result[0] − 0.3·unrelated)·100)` clamped, and the averaged variant is
`round((avg of the three lab-item confidences − 0.5·unrelated)·100)` clamped,
with missing entries defaulting to 0. -/
theorem clip_score_linear_weighting (result : List ℚ) :
    clipScoreTop result = specClipTop result ∧ clipScoreAvg result = specClipAvg result := by
  constructor
  · simp only [clipScoreTop, specClipTop, clipGet]
    rw [mul_comm (List.getD result 3 0) (0.3 : ℚ)]
    omega
  · simp only [clipScoreAvg, specClipAvg, clipGet]
    rw [mul_comm (List.getD result 4 0) (0.5 : ℚ)]
    omega

/-- C8: any request to /api/generate-and-evaluate with a missing (absent or
falsy) prompt, labItem, or teamName is answered with HTTP 400 and
success:false, in both handler copies, before any external call is made, and
with no other observable effect (the recorded call trace is empty). -/
theorem missing_fields_rejected_before_calls (body : ReqBody) (rand : Fin 10)
    (gen : String → Except String String)
    (clip : String → String → Except String ScoreResult)
    (h : (jsFalsy body.prompt || jsFalsy body.labItem || jsFalsy body.teamName) = true) :
    generateAndEvaluateCLIP body gen clip = (⟨400, false⟩, []) ∧
    generateAndEvaluateLocal body rand gen = (⟨400, false⟩, []) := by
  constructor <;> simp [generateAndEvaluateCLIP, generateAndEvaluateLocal, h]

/-- Witness for C8 at a request with an absent prompt field. -/
theorem missing_fields_rejected_before_calls_witness :
    (jsFalsy (ReqBody.mk none (some "beaker") (some "Team Alpha")).prompt ||
      jsFalsy (ReqBody.mk none (some "beaker") (some "Team Alpha")).labItem ||
      jsFalsy (ReqBody.mk none (some "beaker") (some "Team Alpha")).teamName) = true ∧
    (generateAndEvaluateCLIP (ReqBody.mk none (some "beaker") (some "Team Alpha"))
        (fun _ => Except.error "err") (fun _ _ => Except.error "err") = (⟨400, false⟩, []) ∧
      generateAndEvaluateLocal (ReqBody.mk none (some "beaker") (some "Team Alpha")) 0
        (fun _ => Except.error "err") = (⟨400, false⟩, [])) :=
  ⟨by decide,
    missing_fields_rejected_before_calls (ReqBody.mk none (some "beaker") (some "Team Alpha"))
      0 (fun _ => Except.error "err") (fun _ _ => Except.error "err") (by decide)⟩

/-- C9 counterexample: with an empty lab item the match is not empty — JS
containment of the empty string always succeeds — so Variant A grants the
+30 mention bonus (score 80 at zero jitter instead of the 50 that zero
bonuses would give) and Variant B returns the forbidden-word score 0. -/
theorem empty_labItem_bonus_not_zero :
    jsIncludes (jsToLower "a") (jsToLower "") = true ∧
    (evaluatePromptA "a" "" 5).score = 80 ∧
    (evaluatePromptB "a" "" 5).score = 0 := by
  decide

/-- C9 (amended): `evaluatePrompt` is total: every pair of strings, empty
ones included, yields a well-formed result with score in [0,100].  For an
empty prompt and a nonempty lab item the keyword and mention match sets are
empty and the bonuses are zero, leaving only base, jitter and clamp.  For an
empty lab item, however, containment always succeeds, so Variant A adds the
mention bonus and Variant B returns its forbidden-word zero score. -/
theorem scorer_total_empty_strings (prompt labItem : String) (rand : Fin 10)
    (h : labItem ≠ "") :
    (0 ≤ (evaluatePromptA prompt labItem rand).score ∧
      (evaluatePromptA prompt labItem rand).score ≤ 100 ∧
      0 ≤ (evaluatePromptB prompt labItem rand).score ∧
      (evaluatePromptB prompt labItem rand).score ≤ 100) ∧
    (scienceCountA (jsToLower "") = 0 ∧
      scienceCountB (jsToLower "") = 0 ∧
      jsIncludes (jsToLower "") (jsToLower labItem) = false ∧
      (evaluatePromptA "" labItem rand).score =
        max 0 (min 100 (50 + ((rand : Nat) : Int) - 5)) ∧
      (evaluatePromptB "" labItem rand).score =
        max 30 (min 100 (50 + ((rand : Nat) : Int) - 5))) ∧
    (jsIncludes (jsToLower prompt) (jsToLower "") = true ∧
      (evaluatePromptB prompt "" rand).score = 0) := by
  have hne : jsIncludes (jsToLower "") (jsToLower labItem) = false :=
    jsIncludes_empty_of_ne labItem h
  have hincl : jsIncludes (jsToLower prompt) (jsToLower "") = true :=
    hasSubstr_nil_left (jsToLower prompt).data
  refine ⟨⟨?_, ?_, ?_, ?_⟩, ⟨by decide, by decide, hne, ?_, ?_⟩, hincl, ?_⟩
  · simp only [evaluatePromptA]; omega
  · simp only [evaluatePromptA]; omega
  · rcases variantB_bounds_aux prompt labItem rand with h0 | ⟨h30, _⟩
    · omega
    · omega
  · rcases variantB_bounds_aux prompt labItem rand with h0 | ⟨_, h100⟩
    · omega
    · omega
  · simp only [evaluatePromptA, hne, Bool.false_eq_true, if_false]
    have hc : scienceCountA (jsToLower "") = 0 := by decide
    rw [hc]
    simp only [kwBonusA]
    omega
  · simp only [evaluatePromptB, hne, Bool.false_eq_true, if_false]
    have hc : scienceCountB (jsToLower "") = 0 := by decide
    rw [hc]
    have hlen : ¬ String.length "" > 50 := by decide
    have hlen2 : ¬ String.length "" > 100 := by decide
    simp only [kwBonusB, if_neg hlen, if_neg hlen2]
    omega
  · simp [evaluatePromptB, hincl]

/-- Witness for C9 at lab item "b". -/
theorem scorer_total_empty_strings_witness :
    ("b" : String) ≠ "" ∧
    jsIncludes (jsToLower "") (jsToLower "b") = false ∧
    (evaluatePromptB "a" "" 0).score = 0 :=
  ⟨by decide, (scorer_total_empty_strings "a" "b" 0 (by decide)).2.1.2.2.1,
    (scorer_total_empty_strings "a" "b" 0 (by decide)).2.2.2⟩

end Catalyst
